import Mathlib

/-!
Verification of the N-body simulation core of a solar-system background
renderer.  The model is a shallow embedding of the JavaScript source
(SolarSystemCore): vector math mirrors the three.js Vector3 methods used by
the code, the collision resolver mirrors handleCollision, the trail store
mirrors the TrailProvider callbacks, the gravity pass mirrors useGravity,
and the initial-state generator mirrors calculateInitialPosition,
calculateInitialVelocity and createBodyData.  Exact arithmetic is used:
rationals where the code only adds, multiplies and divides, and reals where
the code takes square roots or trigonometric functions.
-/

set_option maxHeartbeats 1000000

variable {α : Type}

/-- Three-component vector, mirroring three.js Vector3. -/
structure Vec3 (α : Type) where
  x : α
  y : α
  z : α
deriving DecidableEq

/-- Componentwise addition (three.js add). -/
def Vec3.add [Add α] (a b : Vec3 α) : Vec3 α :=
  ⟨a.x + b.x, a.y + b.y, a.z + b.z⟩

/-- Componentwise subtraction (three.js subVectors). -/
def Vec3.sub [Sub α] (a b : Vec3 α) : Vec3 α :=
  ⟨a.x - b.x, a.y - b.y, a.z - b.z⟩

/-- Scalar multiplication (three.js multiplyScalar). -/
def Vec3.smul [Mul α] (c : α) (v : Vec3 α) : Vec3 α :=
  ⟨c * v.x, c * v.y, c * v.z⟩

/-- Dot product (three.js dot). -/
def Vec3.dot [Mul α] [Add α] (a b : Vec3 α) : α :=
  a.x * b.x + a.y * b.y + a.z * b.z

/-- Cross product (three.js crossVectors). -/
def Vec3.cross [Mul α] [Sub α] (a b : Vec3 α) : Vec3 α :=
  ⟨a.y * b.z - a.z * b.y, a.z * b.x - a.x * b.z, a.x * b.y - a.y * b.x⟩

/-- Squared distance between two points (three.js distanceToSquared). -/
def Vec3.distanceToSquared [Mul α] [Sub α] [Add α] (a b : Vec3 α) : α :=
  (a.x - b.x) * (a.x - b.x) + (a.y - b.y) * (a.y - b.y) + (a.z - b.z) * (a.z - b.z)

/-- Squared euclidean norm (three.js lengthSq). -/
def Vec3.normSq [Mul α] [Add α] (v : Vec3 α) : α :=
  v.x * v.x + v.y * v.y + v.z * v.z

/-- The zero vector (new Vector3()). -/
def Vec3.zero [Zero α] : Vec3 α := ⟨0, 0, 0⟩

/-- three.js addScaledVector: a + s * v. -/
def Vec3.addScaled [Mul α] [Add α] (a v : Vec3 α) (s : α) : Vec3 α :=
  a.add (Vec3.smul s v)

/-- three.js divideScalar: multiplication by the inverse scalar. -/
def Vec3.divScalar [Mul α] [One α] [Div α] (v : Vec3 α) (s : α) : Vec3 α :=
  Vec3.smul (1 / s) v

/-- Euclidean length over the reals (three.js length). -/
noncomputable def Vec3.rlen (v : Vec3 ℝ) : ℝ := Real.sqrt v.normSq

/-- three.js normalize: divideScalar of the length, with the JS idiom
`length() || 1` mapping a zero length to the divisor 1 (so the zero vector
normalizes to the zero vector). -/
noncomputable def Vec3.normalize3 (v : Vec3 ℝ) : Vec3 ℝ :=
  Vec3.smul (1 / (if v.rlen = 0 then 1 else v.rlen)) v

/-- Embeds a rational vector into the reals. -/
def Vec3.toReal (v : Vec3 ℚ) : Vec3 ℝ := ⟨(v.x : ℝ), (v.y : ℝ), (v.z : ℝ)⟩

/-! ### Constants (config/constants.js section of the source) -/

/-- GRAVITATIONAL_CONSTANT = 6.6743e-11. -/
def GRAVITATIONAL_CONSTANT : ℚ := 6.6743e-11

/-- SCALE_FACTOR = 0.0001. -/
def SCALE_FACTOR : ℚ := 0.0001

/-- SPAWN_RADIUS = 250. -/
def SPAWN_RADIUS : ℚ := 250

/-- SUN_RADIUS = 15. -/
def SUN_RADIUS : ℚ := 15

/-- SUN_MASS = Math.round((4 / 3) * Math.PI * 15 ^ 3 * 1410) / 100.  The
rounded double value is 19933405 (the product is 19933405.38...), so the
stored constant is 199334.05. -/
def SUN_MASS : ℚ := 19933405 / 100

/-! ### Body data model for the collision resolver -/

/-- The userData.type tags used by the source. -/
inductive BodyType where
  | Sun
  | Moon
  | Earth
  | Planet
deriving DecidableEq

/-- The userData object stored on a rigid body: a type tag and identity key. -/
structure UserData where
  btype : BodyType
  key : String
deriving DecidableEq

/-- The observable state of a Rapier rigid body used by handleCollision.
userData may be absent (the source guards on it). -/
structure RBody where
  userData : Option UserData
  mass : ℚ
  translation : Vec3 ℚ
  linvel : Vec3 ℚ
  angvel : Vec3 ℚ
deriving DecidableEq

/-- The contact manifold: manifold.solverContactPoint(0) may be undefined. -/
structure Manifold where
  contactPoint0 : Option (Vec3 ℚ)
deriving DecidableEq

/-- A collision event as delivered to handleCollision: the manifold and the
rigid bodies of target and other, each possibly missing (the source guards
with !manifold, !target?.rigidBody, !other?.rigidBody). -/
structure CollisionEvent where
  manifold : Option Manifold
  targetBody : Option RBody
  otherBody : Option RBody
deriving DecidableEq

/-- The data drawn by createBodyData for a respawn, as consumed by
handleCollision: the fresh random key, spawn position, spawn velocity and
the random vertical angular velocity component Math.random()*0.2-0.1. -/
structure FreshBody where
  key : String
  position : Vec3 ℚ
  linearVelocity : Vec3 ℚ
  angY : ℚ
deriving DecidableEq

/-- The effects of one handleCollision call: the post-call states of the two
bodies, the triggerExplosion calls (position, lookAt) in order, and the
clearTrail calls. -/
structure ResolveResult where
  target : Option RBody
  other : Option RBody
  explosions : List (Vec3 ℚ × Vec3 ℚ)
  clearedTrails : List String
deriving DecidableEq

/-- validDynamicTypes = Planet, Moon, Earth. -/
def validDynamicTypes : List BodyType := [BodyType.Planet, BodyType.Moon, BodyType.Earth]

/-- The momentum-combining velocity computed by handleCollision:
new Vector3().addScaledVector(targetVelocity, targetMass)
.addScaledVector(otherVelocity, otherMass).divideScalar(combinedMass). -/
def combinedVelocityOf (tv ov : Vec3 ℚ) (tm om : ℚ) : Vec3 ℚ :=
  ((Vec3.zero.addScaled tv tm).addScaled ov om).divScalar (tm + om)

/-- The respawn mutation applied to the destroyed target body: the userData
key is overwritten with the fresh key (the type tag is not reassigned), the
translation and linear velocity are set from the fresh body data, and the
angular velocity is set to (0, Math.random()*0.2-0.1, 0). -/
def respawnBody (t : RBody) (udT : UserData) (fresh : FreshBody) : RBody :=
  { t with
    userData := some { udT with key := fresh.key }
    translation := fresh.position
    linvel := fresh.linearVelocity
    angvel := ⟨0, fresh.angY, 0⟩ }

/-- The result of a handleCollision call that performs no mutation and emits
no events (any of the early returns of the source). -/
def noopResult (ev : CollisionEvent) : ResolveResult :=
  { target := ev.targetBody, other := ev.otherBody, explosions := [], clearedTrails := [] }

/-- Shallow embedding of handleCollision from the Planets component of
SolarSystemCore.  Mirrors, in order: the guard on manifold and the two
rigid bodies; the guard on both userData objects; the mass condition
otherMass > targetMass && targetMass > 0; the guard on
manifold.solverContactPoint(0); the combined-velocity computation; the
conditional setLinvel on the surviving other body; the explosion events;
the clearTrail call; and the respawn mutation of the target body. -/
def handleCollision (ev : CollisionEvent) (fresh : FreshBody) : ResolveResult :=
  match ev.manifold, ev.targetBody, ev.otherBody with
  | some manifold, some targetRB, some otherRB =>
    match targetRB.userData, otherRB.userData with
    | some udT, some udO =>
      let targetMass := targetRB.mass
      let otherMass := otherRB.mass
      if otherMass > targetMass ∧ targetMass > 0 then
        match manifold.contactPoint0 with
        | none => noopResult ev
        | some collisionPoint =>
          let targetPosition := targetRB.translation
          let otherPosition := otherRB.translation
          let combinedVelocity :=
            combinedVelocityOf targetRB.linvel otherRB.linvel targetMass otherMass
          let newOther :=
            if udO.btype ∈ validDynamicTypes then
              { otherRB with linvel := combinedVelocity }
            else otherRB
          let explosions :=
            (collisionPoint, targetPosition) ::
              (if udO.btype = BodyType.Moon then [(collisionPoint, otherPosition)] else [])
          { target := some (respawnBody targetRB udT fresh)
            other := some newOther
            explosions := explosions
            clearedTrails := [udT.key] }
      else noopResult ev
    | _, _ => noopResult ev
  | _, _, _ => noopResult ev

/-! ### Trail store (TrailProvider) -/

/-- The per-key trail store of TrailProvider: a JS object mapping body keys
to arrays of recorded points; absent keys map to none. -/
def Trails : Type := String → Option (List (Vec3 ℚ))

/-- The read prevTrails[key] || [] at the top of addTrailPoint. -/
def lookupTrail (ts : Trails) (k : String) : List (Vec3 ℚ) := (ts k).getD []

/-- The JS spread update storing the array v at key k while keeping every
other key. -/
def setTrail (ts : Trails) (k : String) (v : List (Vec3 ℚ)) : Trails :=
  fun q => if q = k then some v else ts q

/-- Shallow embedding of addTrailPoint: read the trail (empty when the key
is absent), drop the oldest point when the length is at least 300, then
append the new point only when there is no last point yet or the squared
distance from the last point exceeds 1; otherwise return the store
unchanged. -/
def addTrailPoint (ts : Trails) (k : String) (p : Vec3 ℚ) : Trails :=
  let trail := lookupTrail ts k
  let newTrail := if 300 ≤ trail.length then trail.drop 1 else trail
  match newTrail.getLast? with
  | none => setTrail ts k (newTrail ++ [p])
  | some lastPoint =>
    if 1 < lastPoint.distanceToSquared p then setTrail ts k (newTrail ++ [p]) else ts

/-- Shallow embedding of clearTrail: object destructuring that removes the
key entirely. -/
def clearTrail (ts : Trails) (k : String) : Trails :=
  fun q => if q = k then none else ts q

/-- The initial trail store: useState with an empty object. -/
def emptyTrails : Trails := fun _ => none

/-- A sequence of addTrailPoint calls starting from the empty store. -/
def applyTrailOps (ops : List (String × Vec3 ℚ)) : Trails :=
  ops.foldl (fun ts op => addTrailPoint ts op.1 op.2) emptyTrails

/-! ### Gravity pass (useGravity) -/

/-- The fields of a Rapier rigid body read by the useGravity pass.  bid
models JS object identity for the currentBody === otherBody check.  The
isSleeping flag models the sleeping state the guards test (the outer guard
of the source reads the property without invoking it; the inner guard
invokes it; the embedding models the evidently intended state test in
both). -/
structure GBody where
  bid : ℕ
  isSleeping : Bool
  isDynamic : Bool
  mass : ℚ
  position : Vec3 ℚ
deriving DecidableEq

/-- currentPosition.distanceTo(otherPosition): the real square root of the
rational squared distance. -/
noncomputable def distanceTo (a b : Vec3 ℚ) : ℝ :=
  Real.sqrt ((a.distanceToSquared b : ℚ) : ℝ)

/-- The outer-loop filter of useGravity: the body exists, is not sleeping,
is dynamic, and has nonzero mass. -/
def outerContributes (b : GBody) : Bool :=
  !b.isSleeping && b.isDynamic && b.mass != 0

/-- The inner-loop filter of useGravity: the other body is a different
object, is not sleeping, is dynamic, has nonzero mass, and is at nonzero
distance.  The source tests distance === 0 on the real distance; the
embedding tests the equivalent squared distance (distanceTo_eq_zero_iff
below proves the equivalence). -/
def innerOk (cur oth : GBody) : Bool :=
  (oth.bid != cur.bid) && !oth.isSleeping && oth.isDynamic && (oth.mass != 0) &&
    (cur.position.distanceToSquared oth.position != 0)

/-- The sequence of applyImpulse calls of one useGravity pass: for every
current body passing the outer filter, one impulse per other body passing
the inner filter, applied to the current body. -/
def gravityImpulseCalls (bodies : List GBody) : List (GBody × GBody) :=
  (bodies.filter outerContributes).flatMap fun cur =>
    (bodies.filter (innerOk cur)).map fun oth => (cur, oth)

/-- The impulse vector of one inner-loop iteration: forceMagnitude
G * m * m' / (distance * SCALE_FACTOR)^2 times the normalized displacement
from the current body toward the other body. -/
noncomputable def impulseValue (cur oth : GBody) : Vec3 ℝ :=
  let distance := distanceTo cur.position oth.position
  let forceMagnitude :=
    ((GRAVITATIONAL_CONSTANT * cur.mass * oth.mass : ℚ) : ℝ) /
      (distance * ((SCALE_FACTOR : ℚ) : ℝ)) ^ 2
  Vec3.smul forceMagnitude ((Vec3.sub oth.position.toReal cur.position.toReal).normalize3)

/-- The velocities after one useGravity pass: Rapier applyImpulse adds
impulse divided by mass to the linear velocity of the current body; bodies
skipped by the outer filter keep their velocity. -/
noncomputable def gravityStep (bodies : List GBody) (vel : ℕ → Vec3 ℝ) : ℕ → Vec3 ℝ :=
  fun i =>
    match bodies.find? (fun b => b.bid == i) with
    | none => vel i
    | some cur =>
      if outerContributes cur then
        (vel i).add (Vec3.smul (1 / (cur.mass : ℝ))
          (((bodies.filter (innerOk cur)).map (impulseValue cur)).foldr Vec3.add Vec3.zero))
      else vel i

/-! ### Initial-state generator -/

/-- Shallow embedding of calculateInitialPosition.  The draws u1, u2, u3
stand for the successive Math.random() results: the angle draw, the radius
draw (only used when isEntry is false), and the height draw. -/
noncomputable def calculateInitialPosition (isEntry : Bool) (u1 u2 u3 : ℝ) : Vec3 ℝ :=
  let theta := u1 * Real.pi * 2
  let radius := if isEntry then ((SPAWN_RADIUS : ℚ) : ℝ) * 1.5
    else u2 * ((SPAWN_RADIUS : ℚ) : ℝ) + ((SUN_RADIUS : ℚ) : ℝ) * 3
  ⟨Real.cos theta * radius, u3 * 10, Real.sin theta * radius⟩

/-- Shallow embedding of calculateInitialVelocity: circular-orbit speed
sqrt(G * SUN_MASS / distance), direction the normalized cross product of
the position with the up axis (0,1,0), scaled by the visual multiplier
20000, and further by 0.75 on respawn. -/
noncomputable def calculateInitialVelocity (position : Vec3 ℝ) (respawn : Bool) : Vec3 ℝ :=
  let radialVector := position
  let distance := radialVector.rlen
  let orbitalSpeed :=
    Real.sqrt ((((GRAVITATIONAL_CONSTANT : ℚ) : ℝ) * ((SUN_MASS : ℚ) : ℝ)) / distance)
  let upVector : Vec3 ℝ := ⟨0, 1, 0⟩
  let velocity :=
    Vec3.smul 20000 (Vec3.smul orbitalSpeed ((radialVector.cross upVector).normalize3))
  if respawn then Vec3.smul 0.75 velocity else velocity

/-- The record produced by createBodyData. -/
structure BodyData where
  key : String
  position : Vec3 ℝ
  linearVelocity : Vec3 ℝ
  scale : ℝ
  udType : BodyType
  udKey : String

/-- Shallow embedding of createBodyData.  Note the source passes its
respawn flag as the isEntry argument of calculateInitialPosition:
calculateInitialPosition(respawn). -/
noncomputable def createBodyData (respawn : Bool) (typeOverride : Option BodyType)
    (scaleOverride : Option ℝ) (keyStr : String) (u1 u2 u3 uscale : ℝ) : BodyData :=
  let key := "instance_" ++ keyStr
  let position := calculateInitialPosition respawn u1 u2 u3
  let linearVelocity := calculateInitialVelocity position respawn
  let scale := scaleOverride.getD (0.5 + uscale * 1.5)
  let btype := typeOverride.getD BodyType.Planet
  ⟨key, position, linearVelocity, scale, btype, key⟩

/-- The horizontal (orbital-plane) radius of a position. -/
noncomputable def horizontalRadius (v : Vec3 ℝ) : ℝ := Real.sqrt (v.x ^ 2 + v.z ^ 2)

/-- C1: when the other body is strictly heavier, the surviving other body
gets exactly the momentum-conserving combined velocity if its type is
Planet, Moon or Earth, and is left untouched if it is the Sun. -/
theorem handleCollision_combined_velocity
    (m : Manifold) (cp : Vec3 ℚ) (t o : RBody) (udT udO : UserData) (fresh : FreshBody)
    (hcp : m.contactPoint0 = some cp)
    (ht : t.userData = some udT) (ho : o.userData = some udO)
    (htm : 0 ≤ t.mass) (hom : t.mass < o.mass) :
    ((udO.btype ∈ validDynamicTypes →
        (handleCollision ⟨some m, some t, some o⟩ fresh).other =
          some { o with linvel := combinedVelocityOf t.linvel o.linvel t.mass o.mass }) ∧
      (udO.btype = BodyType.Sun →
        (handleCollision ⟨some m, some t, some o⟩ fresh).other = some o)) := by
  have hcv0 : t.mass = 0 →
      combinedVelocityOf t.linvel o.linvel t.mass o.mass = o.linvel := by
    intro h0
    have hom0 : o.mass ≠ 0 := by rw [h0] at hom; exact ne_of_gt hom
    simp only [combinedVelocityOf, Vec3.zero, Vec3.addScaled, Vec3.smul, Vec3.add,
      Vec3.divScalar, h0]
    cases hl : o.linvel with
    | mk x y z =>
      simp only [Vec3.mk.injEq]
      refine ⟨?_, ?_, ?_⟩ <;> field_simp
  rcases lt_or_eq_of_le htm with hpos | hzero
  · -- targetMass > 0: the resolution branch runs
    simp only [handleCollision, ht, ho]
    rw [if_pos ⟨hom, hpos⟩, hcp]
    constructor
    · intro hmem
      simp only [if_pos hmem]
    · intro hsun
      have : udO.btype ∉ validDynamicTypes := by
        rw [hsun]; decide
      simp only [if_neg this]
  · -- targetMass = 0: the guard fails, but the combined velocity degenerates
    -- to the other velocity, so both statements still hold
    have h0 : t.mass = 0 := hzero.symm
    simp only [handleCollision, ht, ho]
    rw [if_neg (by rw [h0]; exact fun hc => lt_irrefl 0 hc.2)]
    constructor
    · intro _
      rw [hcv0 h0]
      simp only [noopResult]
      cases o with
      | mk ud ms tr lv av =>
        simp only at ho
        rw [ho]
    · intro _
      simp only [noopResult]

/-- Witness for C1: a concrete resolved collision (target mass 1, velocity
(1,0,0); other mass 3, velocity (5,0,0), type Earth) where the surviving
body ends with the combined velocity (4,0,0). -/
theorem handleCollision_combined_velocity_witness :
    (handleCollision
        ⟨some ⟨some ⟨0, 0, 0⟩⟩,
          some ⟨some ⟨BodyType.Planet, "t"⟩, 1, ⟨0, 0, 0⟩, ⟨1, 0, 0⟩, ⟨0, 0, 0⟩⟩,
          some ⟨some ⟨BodyType.Earth, "o"⟩, 3, ⟨1, 0, 0⟩, ⟨5, 0, 0⟩, ⟨0, 0, 0⟩⟩⟩
        ⟨"n", ⟨9, 0, 0⟩, ⟨0, 0, 1⟩, 0⟩).other =
      some ⟨some ⟨BodyType.Earth, "o"⟩, 3, ⟨1, 0, 0⟩, ⟨4, 0, 0⟩, ⟨0, 0, 0⟩⟩ := by
  have h := handleCollision_combined_velocity ⟨some ⟨0, 0, 0⟩⟩ ⟨0, 0, 0⟩
      ⟨some ⟨BodyType.Planet, "t"⟩, 1, ⟨0, 0, 0⟩, ⟨1, 0, 0⟩, ⟨0, 0, 0⟩⟩
      ⟨some ⟨BodyType.Earth, "o"⟩, 3, ⟨1, 0, 0⟩, ⟨5, 0, 0⟩, ⟨0, 0, 0⟩⟩
      ⟨BodyType.Planet, "t"⟩ ⟨BodyType.Earth, "o"⟩
      ⟨"n", ⟨9, 0, 0⟩, ⟨0, 0, 1⟩, 0⟩
      rfl rfl rfl (by norm_num) (by norm_num)
  rw [h.1 (by decide)]
  simp only [combinedVelocityOf, Vec3.zero, Vec3.addScaled, Vec3.smul, Vec3.add,
    Vec3.divScalar, Option.some.injEq, RBody.mk.injEq, Vec3.mk.injEq]
  norm_num

/-- Claim C2 as stated is false on the code: in this concrete event the
other body (mass 1) is strictly heavier than the target (mass 0), yet
handleCollision performs no resolution at all, because the source guard is
otherMass > targetMass && targetMass > 0.  The result equals the no-op
result: target unchanged, no trail cleared, no respawn. -/
theorem handleCollision_zero_mass_cex :
    ((0 : ℚ) < 1) ∧
      handleCollision
          ⟨some ⟨some ⟨0, 0, 0⟩⟩,
            some ⟨some ⟨BodyType.Planet, "old"⟩, 0, ⟨0, 0, 0⟩, ⟨1, 0, 0⟩, ⟨0, 0, 0⟩⟩,
            some ⟨some ⟨BodyType.Earth, "o"⟩, 1, ⟨1, 0, 0⟩, ⟨0, 0, 0⟩, ⟨0, 0, 0⟩⟩⟩
          ⟨"new", ⟨9, 0, 0⟩, ⟨0, 0, 1⟩, 0⟩ =
        noopResult
          ⟨some ⟨some ⟨0, 0, 0⟩⟩,
            some ⟨some ⟨BodyType.Planet, "old"⟩, 0, ⟨0, 0, 0⟩, ⟨1, 0, 0⟩, ⟨0, 0, 0⟩⟩,
            some ⟨some ⟨BodyType.Earth, "o"⟩, 1, ⟨1, 0, 0⟩, ⟨0, 0, 0⟩, ⟨0, 0, 0⟩⟩⟩ := by
  decide

/-- Claim C2 (amended): for a well-formed event, the target is destroyed
and respawned (and its trail cleared) if and only if the other mass is
strictly greater than the target mass AND the target mass is positive;
when the two masses are equal the resolver is a complete no-op. -/
theorem handleCollision_respawn_iff
    (m : Manifold) (cp : Vec3 ℚ) (t o : RBody) (udT udO : UserData) (fresh : FreshBody)
    (hcp : m.contactPoint0 = some cp)
    (ht : t.userData = some udT) (ho : o.userData = some udO) :
    ((((handleCollision ⟨some m, some t, some o⟩ fresh).target =
          some (respawnBody t udT fresh) ∧
        (handleCollision ⟨some m, some t, some o⟩ fresh).clearedTrails = [udT.key]) ↔
       (t.mass < o.mass ∧ 0 < t.mass)) ∧
      (t.mass = o.mass →
        handleCollision ⟨some m, some t, some o⟩ fresh =
          noopResult ⟨some m, some t, some o⟩)) := by
  by_cases hres : t.mass < o.mass ∧ 0 < t.mass
  · constructor
    · simp only [handleCollision, ht, ho]
      rw [if_pos hres, hcp]
      exact ⟨fun _ => hres, fun _ => ⟨rfl, rfl⟩⟩
    · intro heq
      exact absurd hres.1 (by rw [heq]; exact lt_irrefl _)
  · constructor
    · simp only [handleCollision, ht, ho]
      rw [if_neg hres]
      simp only [noopResult]
      constructor
      · intro hw
        exact absurd hw.2 (by simp)
      · intro hw
        exact absurd hw hres
    · intro _
      simp only [handleCollision, ht, ho]
      rw [if_neg hres]

/-- Witness for C2 (amended): a concrete resolved collision (masses 1 and
3), where the iff holds with both sides true, and the equal-mass arm of the
theorem is vacuous. -/
theorem handleCollision_respawn_iff_witness :
    (handleCollision
        ⟨some ⟨some ⟨0, 0, 0⟩⟩,
          some ⟨some ⟨BodyType.Planet, "t2"⟩, 1, ⟨0, 0, 0⟩, ⟨1, 0, 0⟩, ⟨0, 0, 0⟩⟩,
          some ⟨some ⟨BodyType.Earth, "o2"⟩, 3, ⟨1, 0, 0⟩, ⟨5, 0, 0⟩, ⟨0, 0, 0⟩⟩⟩
        ⟨"n2", ⟨9, 0, 0⟩, ⟨0, 0, 1⟩, 0⟩).target =
      some (respawnBody
        ⟨some ⟨BodyType.Planet, "t2"⟩, 1, ⟨0, 0, 0⟩, ⟨1, 0, 0⟩, ⟨0, 0, 0⟩⟩
        ⟨BodyType.Planet, "t2"⟩ ⟨"n2", ⟨9, 0, 0⟩, ⟨0, 0, 1⟩, 0⟩) := by
  have h := handleCollision_respawn_iff ⟨some ⟨0, 0, 0⟩⟩ ⟨0, 0, 0⟩
      ⟨some ⟨BodyType.Planet, "t2"⟩, 1, ⟨0, 0, 0⟩, ⟨1, 0, 0⟩, ⟨0, 0, 0⟩⟩
      ⟨some ⟨BodyType.Earth, "o2"⟩, 3, ⟨1, 0, 0⟩, ⟨5, 0, 0⟩, ⟨0, 0, 0⟩⟩
      ⟨BodyType.Planet, "t2"⟩ ⟨BodyType.Earth, "o2"⟩
      ⟨"n2", ⟨9, 0, 0⟩, ⟨0, 0, 1⟩, 0⟩
      rfl rfl rfl
  exact (h.1.mpr (by norm_num)).1

/-- Claim C4 is refuted by the code: the respawn branch copies only the
fresh key onto userData, never the fresh Planet type tag.  Here a Moon
(mass 1) is destroyed by a heavier Earth (mass 2): after the call the
target body carries the fresh key "fresh" (so it was respawned), but its
stored type is still Moon, not Planet. -/
theorem respawn_keeps_stale_type :
    ((handleCollision
          ⟨some ⟨some ⟨0, 0, 0⟩⟩,
            some ⟨some ⟨BodyType.Moon, "m"⟩, 1, ⟨0, 0, 0⟩, ⟨0, 0, 0⟩, ⟨0, 0, 0⟩⟩,
            some ⟨some ⟨BodyType.Earth, "e"⟩, 2, ⟨1, 0, 0⟩, ⟨0, 0, 0⟩, ⟨0, 0, 0⟩⟩⟩
          ⟨"fresh", ⟨9, 0, 0⟩, ⟨0, 0, 1⟩, 0⟩).target.bind RBody.userData).map
        UserData.btype = some BodyType.Moon ∧
      ((handleCollision
          ⟨some ⟨some ⟨0, 0, 0⟩⟩,
            some ⟨some ⟨BodyType.Moon, "m"⟩, 1, ⟨0, 0, 0⟩, ⟨0, 0, 0⟩, ⟨0, 0, 0⟩⟩,
            some ⟨some ⟨BodyType.Earth, "e"⟩, 2, ⟨1, 0, 0⟩, ⟨0, 0, 0⟩, ⟨0, 0, 0⟩⟩⟩
          ⟨"fresh", ⟨9, 0, 0⟩, ⟨0, 0, 1⟩, 0⟩).target.bind RBody.userData).map
        UserData.key = some "fresh" ∧
      BodyType.Moon ≠ BodyType.Planet := by
  decide

/-- Claim C6: every resolved collision emits a first explosion at the
contact point oriented toward the destroyed target position (read before
the respawn), and emits a second explosion at the contact point oriented
toward the surviving other position exactly when the surviving type is
Moon. -/
theorem handleCollision_explosion_events
    (m : Manifold) (cp : Vec3 ℚ) (t o : RBody) (udT udO : UserData) (fresh : FreshBody)
    (hcp : m.contactPoint0 = some cp)
    (ht : t.userData = some udT) (ho : o.userData = some udO)
    (htm : 0 < t.mass) (hom : t.mass < o.mass) :
    ((handleCollision ⟨some m, some t, some o⟩ fresh).explosions.head? =
        some (cp, t.translation) ∧
      (udO.btype = BodyType.Moon →
        (handleCollision ⟨some m, some t, some o⟩ fresh).explosions =
          [(cp, t.translation), (cp, o.translation)]) ∧
      (udO.btype ≠ BodyType.Moon →
        (handleCollision ⟨some m, some t, some o⟩ fresh).explosions =
          [(cp, t.translation)])) := by
  simp only [handleCollision, ht, ho]
  rw [if_pos ⟨hom, htm⟩, hcp]
  refine ⟨rfl, fun hmoon => ?_, fun hnot => ?_⟩
  · simp only [if_pos hmoon]
  · simp only [if_neg hnot]

/-- Witness for C6: a Moon (mass 5) survives a collision with a Planet
(mass 1); exactly two explosions fire, the first toward the destroyed
target, the second toward the Moon. -/
theorem handleCollision_explosion_events_witness :
    (handleCollision
        ⟨some ⟨some ⟨2, 0, 0⟩⟩,
          some ⟨some ⟨BodyType.Planet, "p"⟩, 1, ⟨1, 0, 0⟩, ⟨0, 0, 0⟩, ⟨0, 0, 0⟩⟩,
          some ⟨some ⟨BodyType.Moon, "moon"⟩, 5, ⟨3, 0, 0⟩, ⟨0, 0, 0⟩, ⟨0, 0, 0⟩⟩⟩
        ⟨"w", ⟨9, 0, 0⟩, ⟨0, 0, 1⟩, 0⟩).explosions =
      [(⟨2, 0, 0⟩, ⟨1, 0, 0⟩), (⟨2, 0, 0⟩, ⟨3, 0, 0⟩)] := by
  have h := handleCollision_explosion_events ⟨some ⟨2, 0, 0⟩⟩ ⟨2, 0, 0⟩
      ⟨some ⟨BodyType.Planet, "p"⟩, 1, ⟨1, 0, 0⟩, ⟨0, 0, 0⟩, ⟨0, 0, 0⟩⟩
      ⟨some ⟨BodyType.Moon, "moon"⟩, 5, ⟨3, 0, 0⟩, ⟨0, 0, 0⟩, ⟨0, 0, 0⟩⟩
      ⟨BodyType.Planet, "p"⟩ ⟨BodyType.Moon, "moon"⟩
      ⟨"w", ⟨9, 0, 0⟩, ⟨0, 0, 1⟩, 0⟩
      rfl rfl rfl (by norm_num) (by norm_num)
  exact h.2.1 rfl

/-- Reading back the key just written by the spread update. -/
theorem lookupTrail_setTrail_self (ts : Trails) (k : String) (v : List (Vec3 ℚ)) :
    lookupTrail (setTrail ts k v) k = v := by
  simp [lookupTrail, setTrail]

/-- The spread update leaves every other key unchanged. -/
theorem lookupTrail_setTrail_ne (ts : Trails) (k q : String) (v : List (Vec3 ℚ))
    (h : q ≠ k) : lookupTrail (setTrail ts k v) q = lookupTrail ts q := by
  simp [lookupTrail, setTrail, h]

/-- Dropping the head of a list with at least two elements keeps the last
element. -/
theorem getLast?_drop_one {β : Type} (l : List β) (h : 2 ≤ l.length) :
    (l.drop 1).getLast? = l.getLast? := by
  match l, h with
  | a :: b :: t, _ => simp [List.getLast?_cons_cons]

/-- addTrailPoint never touches the trail of a different key. -/
theorem lookupTrail_addTrailPoint_ne (ts : Trails) (k : String) (p : Vec3 ℚ)
    (q : String) (hq : q ≠ k) :
    lookupTrail (addTrailPoint ts k p) q = lookupTrail ts q := by
  simp only [addTrailPoint]
  cases hlast : ((if 300 ≤ (lookupTrail ts k).length then (lookupTrail ts k).drop 1
      else lookupTrail ts k)).getLast? with
  | none =>
    simp only []
    rw [lookupTrail_setTrail_ne _ _ _ _ hq]
  | some lastPoint =>
    simp only []
    by_cases hdist : 1 < lastPoint.distanceToSquared p
    · rw [if_pos hdist, lookupTrail_setTrail_ne _ _ _ _ hq]
    · rw [if_neg hdist]

/-- One addTrailPoint call preserves the 300-point cap on every key. -/
theorem addTrailPoint_length_le (ts : Trails) (k : String) (p : Vec3 ℚ)
    (h : ∀ q, (lookupTrail ts q).length ≤ 300) (q : String) :
    (lookupTrail (addTrailPoint ts k p) q).length ≤ 300 := by
  by_cases hq : q = k
  · subst hq
    have hlen := h q
    simp only [addTrailPoint]
    by_cases hfull : 300 ≤ (lookupTrail ts q).length
    · rw [if_pos hfull]
      cases hlast : ((lookupTrail ts q).drop 1).getLast? with
      | none =>
        simp only []
        rw [lookupTrail_setTrail_self]
        simp only [List.length_append, List.length_drop, List.length_cons,
          List.length_nil]
        omega
      | some lastPoint =>
        simp only []
        by_cases hdist : 1 < lastPoint.distanceToSquared p
        · rw [if_pos hdist, lookupTrail_setTrail_self]
          simp only [List.length_append, List.length_drop, List.length_cons,
            List.length_nil]
          omega
        · rw [if_neg hdist]
          exact h q
    · rw [if_neg hfull]
      cases hlast : (lookupTrail ts q).getLast? with
      | none =>
        simp only []
        rw [lookupTrail_setTrail_self]
        simp only [List.length_append, List.length_cons, List.length_nil]
        omega
      | some lastPoint =>
        simp only []
        by_cases hdist : 1 < lastPoint.distanceToSquared p
        · rw [if_pos hdist, lookupTrail_setTrail_self]
          simp only [List.length_append, List.length_cons, List.length_nil]
          omega
        · rw [if_neg hdist]
          exact h q
  · rw [lookupTrail_addTrailPoint_ne _ _ _ _ hq]
    exact h q

/-- Claim C9: a trail never exceeds 300 points over any sequence of
addTrailPoint calls from the initial empty store; adding a point that
passes the distance test to a full (300-point) trail drops the oldest
point first; and clearTrail removes the key from the store entirely. -/
theorem trail_cap_drop_clear :
    ((∀ ops k, (lookupTrail (applyTrailOps ops) k).length ≤ 300) ∧
      (∀ ts k p q, (lookupTrail ts k).length = 300 →
        (lookupTrail ts k).getLast? = some q → 1 < q.distanceToSquared p →
        lookupTrail (addTrailPoint ts k p) k = (lookupTrail ts k).drop 1 ++ [p]) ∧
      (∀ ts k, clearTrail ts k k = none)) := by
  refine ⟨?_, ?_, ?_⟩
  · intro ops k
    suffices hgen : ∀ ts, (∀ r, (lookupTrail ts r).length ≤ 300) →
        ∀ r, (lookupTrail (ops.foldl (fun t op => addTrailPoint t op.1 op.2) ts) r).length
          ≤ 300 by
      exact hgen emptyTrails (fun r => by simp [lookupTrail, emptyTrails]) k
    induction ops with
    | nil => intro ts h r; exact h r
    | cons op rest ih =>
      intro ts h r
      exact ih _ (addTrailPoint_length_le ts op.1 op.2 h) r
  · intro ts k p q hlen hlast hdist
    have hfull : 300 ≤ (lookupTrail ts k).length := by omega
    have htwo : 2 ≤ (lookupTrail ts k).length := by omega
    simp only [addTrailPoint]
    rw [if_pos hfull, getLast?_drop_one _ htwo, hlast]
    simp only []
    rw [if_pos hdist, lookupTrail_setTrail_self]
  · intro ts k
    simp [clearTrail]

/-- Witness for C9: a one-point store stays within the cap; a concrete
300-point trail of coincident points receives a far point and drops its
oldest entry; clearTrail removes the key. -/
theorem trail_cap_drop_clear_witness :
    ((lookupTrail (applyTrailOps [("a", ⟨2, 0, 0⟩)]) "a").length ≤ 300 ∧
      lookupTrail
          (addTrailPoint (setTrail emptyTrails "a" (List.replicate 300 ⟨0, 0, 0⟩)) "a"
            ⟨3, 0, 0⟩) "a" =
        (lookupTrail (setTrail emptyTrails "a" (List.replicate 300 ⟨0, 0, 0⟩)) "a").drop 1 ++
          [⟨3, 0, 0⟩] ∧
      clearTrail (setTrail emptyTrails "a" [⟨1, 1, 1⟩]) "a" "a" = none) := by
  have h1 : lookupTrail (setTrail emptyTrails "a" (List.replicate 300 ⟨0, 0, 0⟩)) "a" =
      List.replicate 300 ⟨0, 0, 0⟩ := lookupTrail_setTrail_self _ _ _
  refine ⟨trail_cap_drop_clear.1 [("a", ⟨2, 0, 0⟩)] "a",
    trail_cap_drop_clear.2.1 _ "a" ⟨3, 0, 0⟩ ⟨0, 0, 0⟩ ?_ ?_ ?_,
    trail_cap_drop_clear.2.2 _ "a"⟩
  · rw [h1, List.length_replicate]
  · rw [h1, List.getLast?_replicate]
    norm_num
  · norm_num [Vec3.distanceToSquared]

/-- Claim C10: addTrailPoint appends the new point only when the trail is
empty or the squared distance from the last recorded point exceeds 1;
otherwise the entire store is returned unchanged.  When it does append, the
stored trail becomes the (oldest-dropped when full) trail plus the new
point. -/
theorem addTrailPoint_decimates :
    ((∀ ts k p q, (lookupTrail ts k).getLast? = some q → q.distanceToSquared p ≤ 1 →
        addTrailPoint ts k p = ts) ∧
      (∀ ts k p, (lookupTrail ts k).getLast? = none →
        lookupTrail (addTrailPoint ts k p) k = [p]) ∧
      (∀ ts k p q, (lookupTrail ts k).getLast? = some q → 1 < q.distanceToSquared p →
        lookupTrail (addTrailPoint ts k p) k =
          (if 300 ≤ (lookupTrail ts k).length then (lookupTrail ts k).drop 1
            else lookupTrail ts k) ++ [p])) := by
  have hsame : ∀ (ts : Trails) (k : String),
      ((if 300 ≤ (lookupTrail ts k).length then (lookupTrail ts k).drop 1
        else lookupTrail ts k)).getLast? = (lookupTrail ts k).getLast? := by
    intro ts k
    by_cases hfull : 300 ≤ (lookupTrail ts k).length
    · rw [if_pos hfull]
      exact getLast?_drop_one _ (by omega)
    · rw [if_neg hfull]
  refine ⟨?_, ?_, ?_⟩
  · intro ts k p q hlast hdist
    simp only [addTrailPoint]
    rw [hsame ts k, hlast]
    simp only []
    rw [if_neg (not_lt.mpr hdist)]
  · intro ts k p hlast
    have hnil : lookupTrail ts k = [] := by simpa using hlast
    simp only [addTrailPoint]
    rw [hnil]
    simp only [List.length_nil, List.drop_nil]
    rw [if_neg (by omega : ¬ (300 : ℕ) ≤ 0)]
    simp only [List.getLast?_nil]
    rw [lookupTrail_setTrail_self]
    rfl
  · intro ts k p q hlast hdist
    simp only [addTrailPoint]
    rw [hsame ts k, hlast]
    simp only []
    rw [if_pos hdist, lookupTrail_setTrail_self]

/-- Witness for C10: a store holding one point at the origin ignores a
nearby point (squared distance 1/4) and stores a far point (squared
distance 9). -/
theorem addTrailPoint_decimates_witness :
    (addTrailPoint (setTrail emptyTrails "a" [⟨0, 0, 0⟩]) "a" ⟨1/2, 0, 0⟩ =
        setTrail emptyTrails "a" [⟨0, 0, 0⟩] ∧
      lookupTrail (addTrailPoint (setTrail emptyTrails "a" [⟨0, 0, 0⟩]) "a" ⟨3, 0, 0⟩) "a" =
        (if 300 ≤ (lookupTrail (setTrail emptyTrails "a" [⟨0, 0, 0⟩]) "a").length
          then (lookupTrail (setTrail emptyTrails "a" [⟨0, 0, 0⟩]) "a").drop 1
          else lookupTrail (setTrail emptyTrails "a" [⟨0, 0, 0⟩]) "a") ++ [⟨3, 0, 0⟩]) := by
  have h1 : lookupTrail (setTrail emptyTrails "a" [⟨0, 0, 0⟩]) "a" = [⟨0, 0, 0⟩] :=
    lookupTrail_setTrail_self _ _ _
  constructor
  · refine addTrailPoint_decimates.1 _ "a" ⟨1/2, 0, 0⟩ ⟨0, 0, 0⟩ ?_ ?_
    · rw [h1]
      rfl
    · norm_num [Vec3.distanceToSquared]
  · refine addTrailPoint_decimates.2.2 _ "a" ⟨3, 0, 0⟩ ⟨0, 0, 0⟩ ?_ ?_
    · rw [h1]
      rfl
    · norm_num [Vec3.distanceToSquared]

/-- The squared distance is a sum of squares, hence nonnegative. -/
theorem distSq_nonneg (a b : Vec3 ℚ) : 0 ≤ a.distanceToSquared b := by
  simp only [Vec3.distanceToSquared]
  have h1 := mul_self_nonneg (a.x - b.x)
  have h2 := mul_self_nonneg (a.y - b.y)
  have h3 := mul_self_nonneg (a.z - b.z)
  linarith

/-- The real distance vanishes exactly when the rational squared distance
vanishes, so the distance === 0 guard of the source and the
squared-distance guard of the embedding agree. -/
theorem distanceTo_eq_zero_iff (a b : Vec3 ℚ) :
    distanceTo a b = 0 ↔ a.distanceToSquared b = 0 := by
  unfold distanceTo
  rw [Real.sqrt_eq_zero']
  constructor
  · intro h
    have h2 : ((a.distanceToSquared b : ℚ) : ℝ) = 0 :=
      le_antisymm h (by exact_mod_cast distSq_nonneg a b)
    exact_mod_cast h2
  · intro h
    rw [h]
    simp

/-- Every applied impulse comes from a pair passing the inner filter. -/
theorem mem_gravityImpulseCalls (bodies : List GBody) (cur oth : GBody)
    (h : (cur, oth) ∈ gravityImpulseCalls bodies) : innerOk cur oth = true := by
  simp only [gravityImpulseCalls, List.mem_flatMap, List.mem_map, List.mem_filter] at h
  obtain ⟨c, ⟨_, _⟩, o, ⟨_, hinner⟩, heq⟩ := h
  injection heq with e1 e2
  subst e1
  subst e2
  exact hinner

/-- The inner filter requires nonzero squared distance. -/
theorem innerOk_dist_ne (cur oth : GBody) (h : innerOk cur oth = true) :
    cur.position.distanceToSquared oth.position ≠ 0 := by
  simp only [innerOk, Bool.and_eq_true, bne_iff_ne] at h
  exact h.2

/-- Claim C7: a coincident pair of bodies is skipped by the gravity pass
(no impulse call for it), and every impulse call that does happen has
nonzero separation, so the force denominator (distance * SCALE_FACTOR)^2
is never zero and the velocity update is always well defined. -/
theorem gravity_skips_coincident :
    ((∀ (bodies : List GBody) (cur oth : GBody),
        (cur, oth) ∈ gravityImpulseCalls bodies →
        distanceTo cur.position oth.position ≠ 0) ∧
      (∀ (bodies : List GBody) (cur oth : GBody), cur.position = oth.position →
        (cur, oth) ∉ gravityImpulseCalls bodies)) := by
  constructor
  · intro bodies cur oth hm h0
    exact innerOk_dist_ne cur oth (mem_gravityImpulseCalls bodies cur oth hm)
      ((distanceTo_eq_zero_iff _ _).mp h0)
  · intro bodies cur oth hpos hm
    apply innerOk_dist_ne cur oth (mem_gravityImpulseCalls bodies cur oth hm)
    rw [hpos]
    simp [Vec3.distanceToSquared]

/-- Pointwise equality of components gives equality of vectors. -/
@[ext] theorem Vec3.ext3 {v w : Vec3 α} (hx : v.x = w.x) (hy : v.y = w.y)
    (hz : v.z = w.z) : v = w := by
  cases v
  cases w
  simp_all

/-- Witness for C7: two separated dynamic bodies produce an impulse call at
nonzero distance; two coincident dynamic bodies produce none. -/
theorem gravity_skips_coincident_witness :
    (((⟨0, false, true, 1, ⟨0, 0, 0⟩⟩ : GBody), (⟨1, false, true, 1, ⟨3, 0, 0⟩⟩ : GBody)) ∈
        gravityImpulseCalls
          [⟨0, false, true, 1, ⟨0, 0, 0⟩⟩, ⟨1, false, true, 1, ⟨3, 0, 0⟩⟩] ∧
      distanceTo (⟨0, 0, 0⟩ : Vec3 ℚ) ⟨3, 0, 0⟩ ≠ 0 ∧
      ((⟨2, false, true, 1, ⟨5, 0, 0⟩⟩ : GBody), (⟨3, false, true, 1, ⟨5, 0, 0⟩⟩ : GBody)) ∉
        gravityImpulseCalls
          [⟨2, false, true, 1, ⟨5, 0, 0⟩⟩, ⟨3, false, true, 1, ⟨5, 0, 0⟩⟩]) := by
  have hmem : ((⟨0, false, true, 1, ⟨0, 0, 0⟩⟩ : GBody),
      (⟨1, false, true, 1, ⟨3, 0, 0⟩⟩ : GBody)) ∈
      gravityImpulseCalls
        [⟨0, false, true, 1, ⟨0, 0, 0⟩⟩, ⟨1, false, true, 1, ⟨3, 0, 0⟩⟩] := by
    simp only [gravityImpulseCalls, List.mem_flatMap, List.mem_map, List.mem_filter]
    refine ⟨⟨0, false, true, 1, ⟨0, 0, 0⟩⟩,
      ⟨by simp, by norm_num [outerContributes]⟩,
      ⟨1, false, true, 1, ⟨3, 0, 0⟩⟩,
      ⟨by simp, by norm_num [innerOk, Vec3.distanceToSquared]⟩, rfl⟩
  have h1 := gravity_skips_coincident.1 _ _ _ hmem
  have h2 := gravity_skips_coincident.2
    [⟨2, false, true, 1, ⟨5, 0, 0⟩⟩, ⟨3, false, true, 1, ⟨5, 0, 0⟩⟩]
    ⟨2, false, true, 1, ⟨5, 0, 0⟩⟩ ⟨3, false, true, 1, ⟨5, 0, 0⟩⟩ rfl
  exact ⟨hmem, h1, h2⟩

/-- Claim C3 is contradicted by the code: with a kinematic Sun (isDynamic
false, the Rapier kinematicPosition type) and one dynamic planet, the pass
makes no impulse call at all, because the inner loop filters on
otherBody.isDynamic(), which excludes the kinematic Sun as an attractor;
consequently no velocity changes.  The second half of the claim holds: the
Sun velocity is never updated (the outer loop also skips non-dynamic
bodies), but the planet receives no impulse from the Sun either. -/
theorem sun_exerts_no_gravity :
    (gravityImpulseCalls
        [⟨0, false, false, SUN_MASS, ⟨0, 0, 0⟩⟩, ⟨1, false, true, 1, ⟨95, 0, 0⟩⟩] = [] ∧
      ∀ (vel : ℕ → Vec3 ℝ) (i : ℕ),
        gravityStep [⟨0, false, false, SUN_MASS, ⟨0, 0, 0⟩⟩, ⟨1, false, true, 1, ⟨95, 0, 0⟩⟩]
          vel i = vel i) := by
  constructor
  · rfl
  · intro vel i
    by_cases h0 : i = 0
    · subst h0
      rfl
    · by_cases h1 : i = 1
      · subst h1
        have hred : gravityStep
            [⟨0, false, false, SUN_MASS, ⟨0, 0, 0⟩⟩, ⟨1, false, true, 1, ⟨95, 0, 0⟩⟩]
            vel 1 = (vel 1).add (Vec3.smul (1 / ((1 : ℚ) : ℝ)) Vec3.zero) := rfl
        refine hred.trans ?_
        apply Vec3.ext3 <;> simp [Vec3.add, Vec3.smul, Vec3.zero]
      · simp only [gravityStep]
        rw [List.find?_cons_of_neg _ (by simp only [beq_iff_eq]; omega),
          List.find?_cons_of_neg _ (by simp only [beq_iff_eq]; omega)]
        rfl

/-- The squared norm scales with the square of the scalar. -/
theorem normSq_smul (c : ℝ) (v : Vec3 ℝ) :
    (Vec3.smul c v).normSq = c ^ 2 * v.normSq := by
  simp only [Vec3.smul, Vec3.normSq]
  ring

/-- The length scales with the absolute value of the scalar. -/
theorem rlen_smul (c : ℝ) (v : Vec3 ℝ) :
    (Vec3.smul c v).rlen = |c| * v.rlen := by
  rw [Vec3.rlen, normSq_smul, Real.sqrt_mul (sq_nonneg c), Real.sqrt_sq_eq_abs,
    Vec3.rlen]

/-- Normalizing a vector of nonzero length yields a unit vector. -/
theorem rlen_normalize3 (v : Vec3 ℝ) (h : v.rlen ≠ 0) : v.normalize3.rlen = 1 := by
  have hpos : 0 < v.rlen := lt_of_le_of_ne (Real.sqrt_nonneg _) (Ne.symm h)
  rw [Vec3.normalize3, if_neg h, rlen_smul, abs_of_pos (by positivity : (0:ℝ) < 1 / v.rlen)]
  field_simp

/-- The dot product is linear in a scalar multiple of the left argument. -/
theorem dot_smul_left (c : ℝ) (v w : Vec3 ℝ) :
    (Vec3.smul c v).dot w = c * v.dot w := by
  simp only [Vec3.smul, Vec3.dot]
  ring

/-- Claim C8 (amended): for every position whose horizontal projection
(x, z) is nonzero, the spawn velocity is perpendicular to the position and
its magnitude is sqrt(G * SUN_MASS / r) times the visual multiplier 20000,
further scaled by 0.75 on respawn.  (For a position on the vertical axis
the cross product with the up axis degenerates to the zero vector, see the
counterexample.) -/
theorem spawn_velocity_orbit (p : Vec3 ℝ) (rsp : Bool)
    (hp : p.x ≠ 0 ∨ p.z ≠ 0) :
    ((calculateInitialVelocity p rsp).dot p = 0 ∧
      (calculateInitialVelocity p rsp).rlen =
        Real.sqrt ((((GRAVITATIONAL_CONSTANT : ℚ) : ℝ) * ((SUN_MASS : ℚ) : ℝ)) / p.rlen) *
          20000 * (if rsp then (0.75 : ℝ) else 1)) := by
  have hdz : (p.cross ⟨0, 1, 0⟩).dot p = 0 := by
    simp only [Vec3.cross, Vec3.dot]
    ring
  have hw : (p.cross ⟨0, 1, 0⟩).normSq = p.z ^ 2 + p.x ^ 2 := by
    simp only [Vec3.cross, Vec3.normSq]
    ring
  have hpos : 0 < (p.cross ⟨0, 1, 0⟩).normSq := by
    rw [hw]
    rcases hp with h | h
    · have h2 : 0 < p.x ^ 2 := by positivity
      have h3 : 0 ≤ p.z ^ 2 := sq_nonneg _
      linarith
    · have h2 : 0 < p.z ^ 2 := by positivity
      have h3 : 0 ≤ p.x ^ 2 := sq_nonneg _
      linarith
  have hLne : (p.cross ⟨0, 1, 0⟩).rlen ≠ 0 := by
    rw [Vec3.rlen]
    exact ne_of_gt (Real.sqrt_pos.mpr hpos)
  constructor
  · cases rsp <;>
      simp [calculateInitialVelocity, Vec3.normalize3, dot_smul_left, hdz]
  · cases rsp
    · simp only [calculateInitialVelocity, Bool.false_eq_true, if_false]
      rw [rlen_smul, rlen_smul, rlen_normalize3 _ hLne,
        abs_of_nonneg (by norm_num : (0:ℝ) ≤ 20000),
        abs_of_nonneg (Real.sqrt_nonneg _)]
      ring
    · simp only [calculateInitialVelocity, if_true]
      rw [rlen_smul, rlen_smul, rlen_smul, rlen_normalize3 _ hLne,
        abs_of_nonneg (by norm_num : (0:ℝ) ≤ 0.75),
        abs_of_nonneg (by norm_num : (0:ℝ) ≤ 20000),
        abs_of_nonneg (Real.sqrt_nonneg _)]
      ring

/-- Witness for C8 (amended): at position (3, 0, 4), distance 5 from the
origin, the spawn velocity is perpendicular to the position and has the
circular-orbit magnitude. -/
theorem spawn_velocity_orbit_witness :
    ((3:ℝ) ≠ 0 ∧
      (calculateInitialVelocity ⟨3, 0, 4⟩ false).dot ⟨3, 0, 4⟩ = 0 ∧
      (calculateInitialVelocity ⟨3, 0, 4⟩ false).rlen =
        Real.sqrt ((((GRAVITATIONAL_CONSTANT : ℚ) : ℝ) * ((SUN_MASS : ℚ) : ℝ)) / 5) *
          20000) := by
  have h5 : (⟨3, 0, 4⟩ : Vec3 ℝ).rlen = 5 := by
    rw [Vec3.rlen]
    rw [show (⟨3, 0, 4⟩ : Vec3 ℝ).normSq = 5 ^ 2 by simp [Vec3.normSq]; norm_num]
    exact Real.sqrt_sq (by norm_num)
  have h := spawn_velocity_orbit ⟨3, 0, 4⟩ false (Or.inl (by norm_num))
  refine ⟨by norm_num, h.1, ?_⟩
  have h2 := h.2
  rw [h5] at h2
  simpa using h2

/-- Claim C8 as stated is false at the nonzero position (0, 1, 0): the
cross product with the up axis vanishes, three.js normalize maps the zero
vector to itself, and the returned velocity is the zero vector, whose
magnitude is not sqrt(G * SUN_MASS / 1) * 20000 (that value is positive). -/
theorem spawn_velocity_axis_cex :
    ((⟨0, 1, 0⟩ : Vec3 ℝ) ≠ Vec3.zero ∧
      (calculateInitialVelocity ⟨0, 1, 0⟩ false).rlen = 0 ∧
      Real.sqrt ((((GRAVITATIONAL_CONSTANT : ℚ) : ℝ) * ((SUN_MASS : ℚ) : ℝ)) /
          (⟨0, 1, 0⟩ : Vec3 ℝ).rlen) * 20000 ≠ 0) := by
  have hzlen : (Vec3.zero : Vec3 ℝ).rlen = 0 := by
    rw [Vec3.rlen]
    rw [show (Vec3.zero : Vec3 ℝ).normSq = 0 by simp [Vec3.normSq, Vec3.zero]]
    exact Real.sqrt_zero
  have hcross : (⟨0, 1, 0⟩ : Vec3 ℝ).cross ⟨0, 1, 0⟩ = Vec3.zero := by
    apply Vec3.ext3 <;> simp [Vec3.cross, Vec3.zero]
  have hnormz : (Vec3.zero : Vec3 ℝ).normalize3 = Vec3.zero := by
    rw [Vec3.normalize3, if_pos hzlen]
    apply Vec3.ext3 <;> simp [Vec3.smul, Vec3.zero]
  have hrlen1 : (⟨0, 1, 0⟩ : Vec3 ℝ).rlen = 1 := by
    rw [Vec3.rlen]
    rw [show (⟨0, 1, 0⟩ : Vec3 ℝ).normSq = 1 by simp [Vec3.normSq]]
    exact Real.sqrt_one
  refine ⟨?_, ?_, ?_⟩
  · intro h
    have := congrArg Vec3.y h
    simp [Vec3.zero] at this
  · simp only [calculateInitialVelocity, Bool.false_eq_true, if_false]
    rw [hcross, hnormz, rlen_smul, rlen_smul, hzlen]
    simp
  · rw [hrlen1, div_one]
    have hGq : (0:ℚ) < GRAVITATIONAL_CONSTANT * SUN_MASS := by
      norm_num [GRAVITATIONAL_CONSTANT, SUN_MASS]
    have hGM : (0:ℝ) < ((GRAVITATIONAL_CONSTANT : ℚ) : ℝ) * ((SUN_MASS : ℚ) : ℝ) := by
      have : ((GRAVITATIONAL_CONSTANT * SUN_MASS : ℚ) : ℝ) > 0 := by exact_mod_cast hGq
      push_cast at this
      linarith
    exact mul_ne_zero (ne_of_gt (Real.sqrt_pos.mpr hGM)) (by norm_num)

/-- Claim C5 (amended): createBodyData passes its respawn flag as the
isEntry argument of calculateInitialPosition, so every respawned body is
repositioned on the fixed entry circle: its horizontal radius is exactly
SPAWN_RADIUS * 1.5 = 375, for all random draws. -/
theorem respawn_radius_fixed (tO : Option BodyType) (sO : Option ℝ) (ks : String)
    (u1 u2 u3 us : ℝ) :
    horizontalRadius (createBodyData true tO sO ks u1 u2 u3 us).position = 375 := by
  simp only [createBodyData, calculateInitialPosition, horizontalRadius, if_true]
  have hR : ((SPAWN_RADIUS : ℚ) : ℝ) * 1.5 = 375 := by norm_num [SPAWN_RADIUS]
  rw [hR]
  have hcs := Real.cos_sq_add_sin_sq (u1 * Real.pi * 2)
  have hsum : (Real.cos (u1 * Real.pi * 2) * 375) ^ 2 +
      (Real.sin (u1 * Real.pi * 2) * 375) ^ 2 = 375 ^ 2 := by
    nlinarith [hcs]
  rw [hsum]
  exact Real.sqrt_sq (by norm_num)

/-- Claim C5 as stated is false on the code: at the concrete respawn draws
below, the horizontal spawn radius is 375 = SPAWN_RADIUS * 1.5, which is
not inside the band [SUN_RADIUS * 3, SUN_RADIUS * 3 + SPAWN_RADIUS) =
[45, 295) the claim asserts; createBodyData passes respawn as isEntry. -/
theorem respawn_radius_cex :
    (horizontalRadius (createBodyData true none none "k" 0 0 0 0).position = 375 ∧
      ¬ horizontalRadius (createBodyData true none none "k" 0 0 0 0).position <
          ((SUN_RADIUS : ℚ) : ℝ) * 3 + ((SPAWN_RADIUS : ℚ) : ℝ)) := by
  have h375 : horizontalRadius (createBodyData true none none "k" 0 0 0 0).position = 375 := by
    simp only [createBodyData, calculateInitialPosition, horizontalRadius, if_true]
    have h0 : (0:ℝ) * Real.pi * 2 = 0 := by ring
    rw [h0, Real.cos_zero, Real.sin_zero]
    have hR : ((SPAWN_RADIUS : ℚ) : ℝ) * 1.5 = 375 := by norm_num [SPAWN_RADIUS]
    rw [hR]
    rw [show ((1:ℝ) * 375) ^ 2 + ((0:ℝ) * 375) ^ 2 = 375 ^ 2 by norm_num]
    exact Real.sqrt_sq (by norm_num)
  refine ⟨h375, ?_⟩
  rw [h375]
  norm_num [SUN_RADIUS, SPAWN_RADIUS]
